import Mathlib

/-!
Shallow embedding of the urist_bot disclaimer engine
(`src/models.py`, `src/generator.py`, and the mass-generation loop of
`src/handlers.py`) together with theorems checking the specification's
claims about it.

Modelling conventions:
* Python `(bool, Optional[str])` validator results become `Bool × Option String`.
* Python exceptions (`ValidationError` from `generate`, `ValueError` from
  `get_legal_entity`) become `Except String`, carrying the message.
* Python `str.lower()` is modelled for ASCII and the Cyrillic range actually
  occurring in the registry; `str.strip()` drops whitespace at both ends.
* Numeric parameters are modelled as `Int`.  In the source `discount_size`
  is a float and the other amounts are ints; every claim (and the bot's
  conversation handlers for the int fields) only exercises integral values,
  and Python renders an integral int argument exactly as `Int.toString`
  renders it.  Python falsiness of `0`/`None`/`""` is modelled explicitly.
-/

namespace UristBot

/-- One lowercase step of Python `str.lower()`: ASCII letters and the
Cyrillic capitals А..Я (U+0410..U+042F, mapped by +0x20) plus Ё (U+0401 →
U+0451), which cover every character fed to the registry. -/
def lowerChar (c : Char) : Char :=
  if 'A' ≤ c ∧ c ≤ 'Z' then Char.ofNat (c.toNat + 32)
  else if 0x410 ≤ c.toNat ∧ c.toNat ≤ 0x42F then Char.ofNat (c.toNat + 32)
  else if c.toNat = 0x401 then Char.ofNat 0x451
  else c

/-- Python `str.lower()`. -/
def toLowerPy (s : String) : String := ⟨s.data.map lowerChar⟩

/-- Python `str.strip()`: drop whitespace from both ends. -/
def stripPy (s : String) : String :=
  ⟨((s.data.dropWhile Char.isWhitespace).reverse.dropWhile Char.isWhitespace).reverse⟩

/-- `models.CreativeType`. -/
inductive CreativeType where
  | dynamic_newcomer
  | classic_newcomer
  | promo_code
  | certificate
  | image
  | product
  | vendor
deriving DecidableEq

/-- `models.ChannelType`. -/
inductive ChannelType where
  | tv_radio
  | other
deriving DecidableEq

/-- `models.LegalEntity`. -/
structure LegalEntity where
  short : String
  full : String
deriving DecidableEq

/-- `models.YANDEX_LAVKA`. -/
def YANDEX_LAVKA : LegalEntity :=
  { short := "ООО «Яндекс Лавка», Москва, ОГРН 1187746479250"
    full := "ООО «Яндекс.Лавка», 123112, г. Москва, пр. 1-й Красногвардейский, д. 22, стр. 1, эт. 12, пом. 12-40, ОГРН 1187746479250" }

/-- `models.FRANCHISE_ENTITIES`, in source order (Python dicts preserve
insertion order). -/
def FRANCHISE_ENTITIES : List (String × LegalEntity) :=
  [ ("тула",
     { short := "ООО «Лавка Счастья», Липецк, ОГРН 1234800004878"
       full := "ООО «Лавка Счастья» (398059, г. Липецк, ул. Коммунальная, д. 3, помещ. 1, ОГРН 1234800004878)" }),
    ("тверь",
     { short := "ООО «ДВМ-ГРУПП», Тверь, ОГРН 1246900009850"
       full := "ООО «ДВМ-ГРУПП» (170100, г. Тверь, б-р Радищева, д. 12, этаж 2 помещ. 15, ОГРН 1246900009850)" }),
    ("ярославль",
     { short := "ООО «ЯРЛАВКА», Ярославль, ОГРН 1257600001845"
       full := "ООО «ЯРЛАВКА» (150007, г. Ярославль, Сквозной переулок, д. 8А, кв. 3, ОГРН 1257600001845)" }),
    ("рязань",
     { short := "ООО «Лавка Радости», Липецк, ОГРН 1254800002049"
       full := "ООО «Лавка Радости» (398059, Липецкая область, г. Липецк, ул. Коммунальная, д. 3, помещ. 1, ОГРН 1254800002049)" }),
    ("калуга",
     { short := "ООО «ГОССТРОЙРЕСУРС», Калуга, ОГРН 1154028002688"
       full := "ООО «ГОССТРОЙРЕСУРС» (248001, Калужская область, г Калуга, ул Суворова, д. 17, ОГРН 1154028002688)" }),
    ("великий новгород",
     { short := "ООО «Премиум Стор», рп Панковка, ОГРН 1157847202996"
       full := "ООО «Премиум Стор» (173526, Новгородская область, рп Панковка, ул. Строительная, д. 7Б, офис 1Б, ОГРН 1157847202996)" }),
    ("обнинск",
     { short := "ООО «ЛАВКАГОУ», Санкт-Петербург, ОГРН 1257800045051"
       full := "ООО «ЛАВКАГОУ» (197376, г. Санкт-Петербург, ул. Планерная, д. 99 стр.1, помещ. 47Н, ОГРН 1257800045051)" }),
    ("липецк",
     { short := "ООО «АМР», Липецкая область, м.о. Липецкий, с. Сырское, ОГРН 1254800003875"
       full := "ООО «АМР» (Липецкая обл., М.О. Липецкий, с. Сырское, ул. Воронежская, стр. 35, помещ. 11, ОГРН 1254800003875)" }),
    ("иваново",
     { short := "ООО «ИВЛАВКА», Иваново, ОГРН 1253700005591"
       full := "ООО «ИВЛАВКА» (153000, Ивановская область, г. Иваново, ул. Палехская, д. 6., ОГРН 1253700005591)" }),
    ("тамбов",
     { short := "ООО «Лавка мечты», Липецк, ОГРН 1254800004700"
       full := "ООО «Лавка мечты» (398001, г. Липецк, ул Л. Толстого, д. 7, помещ. 2, ОГРН 1254800004700)" }),
    ("владимир",
     { short := "ООО «ДВМ-ГРУПП», Тверь, ОГРН 1246900009850"
       full := "ООО «ДВМ-ГРУПП» (170100, г. Тверь, б-р Радищева, д. 12, этаж 2 помещ. 15, ОГРН 1246900009850)" }),
    ("иркутск",
     { short := "ООО «ПРОДСНАБ», Иркутск, ОГРН 1213800013250"
       full := "ООО «ПРОДСНАБ» (664035, Иркутская обл., г. Иркутск, ул. Рабочего штаба, д. 15, помещ. 6, ОГРН 1213800013250)" }),
    ("набережные челны",
     { short := "ООО «Премиум Стор», рп Панковка, ОГРН 1157847202996"
       full := "ООО «Премиум Стор» (173526, Новгородская область, рп Панковка, ул. Строительная, д. 7Б, офис 1Б, ОГРН 1157847202996)" }),
    ("нижнекамск",
     { short := "ООО «Премиум Стор», рп Панковка, ОГРН 1157847202996"
       full := "ООО «Премиум Стор» (173526, Новгородская область, рп Панковка, ул. Строительная, д. 7Б, офис 1Б, ОГРН 1157847202996)" }),
    ("чебоксары",
     { short := "ООО «Сервисная франшиза магазинов и кафе», Москва, ОГРН 1237700294138"
       full := "ООО «Сервисная франшиза магазинов и кафе» (123007,г. Москва, проезд 3-й Хорошевский, д. 1 стр. 1, помещ. 3/1, ОГРН 1237700294138)" }),
    ("йошкар-ола",
     { short := "ООО «Сервисная франшиза магазинов и кафе», Москва, ОГРН 1237700294138"
       full := "ООО «Сервисная франшиза магазинов и кафе» (123007,г. Москва, проезд 3-й Хорошевский, д. 1 стр. 1, помещ. 3/1, ОГРН 1237700294138)" }) ]

/-- `models.CORPORATE_CITIES`. -/
def CORPORATE_CITIES : List String :=
  [ "москва", "мо", "московская область", "санкт-петербург", "спб", "ло",
    "ленинградская область", "казань", "новосибирск", "нижний новгород",
    "ростов", "краснодар", "екатеринбург", "челябинск", "тюмень", "сочи",
    "воронеж", "пермь" ]

/-- `models.ALL_CITIES = CORPORATE_CITIES + list(FRANCHISE_ENTITIES.keys())`. -/
def ALL_CITIES : List String := CORPORATE_CITIES ++ FRANCHISE_ENTITIES.map Prod.fst

/-- Python `dict` lookup on the franchise table (first matching key). -/
def lookupEntity : List (String × LegalEntity) → String → Option LegalEntity
  | [], _ => none
  | (k, v) :: rest, key => if key = k then some v else lookupEntity rest key

/-- `models.get_legal_entity`: raises `ValueError` (modelled as `.error`)
for a city in neither table, otherwise returns the full text for TV/Radio
and the short text for other channels. -/
def get_legal_entity (city : String) (channel : ChannelType) : Except String String :=
  let city_lower := stripPy (toLowerPy city)
  if city_lower ∈ CORPORATE_CITIES then
    match channel with
    | .tv_radio => .ok YANDEX_LAVKA.full
    | .other => .ok YANDEX_LAVKA.short
  else
    match lookupEntity FRANCHISE_ENTITIES city_lower with
    | some entity =>
      match channel with
      | .tv_radio => .ok entity.full
      | .other => .ok entity.short
    | none => .error ("Город \x27" ++ city ++ "\x27 не найден в списке доступных городов")

/-- Numeric value of an ASCII digit character. -/
def digitVal (c : Char) : Nat := c.toNat - 48

/-- Start codepoints of the 10-character blocks of Unicode general
category Nd (decimal digits), which is what Python's `\d` matches on
`str` patterns (no `re.ASCII` flag is set in the source).  Each block
runs from its start (digit value 0) to start + 9 (digit value 9). -/
def ndFamilyStarts : List Nat :=
  [0x30, 0x660, 0x6F0, 0x7C0, 0x966, 0x9E6, 0xA66, 0xAE6, 0xB66, 0xBE6,
   0xC66, 0xCE6, 0xD66, 0xDE6, 0xE50, 0xED0, 0xF20, 0x1040, 0x1090, 0x17E0,
   0x1810, 0x1946, 0x19D0, 0x1A80, 0x1A90, 0x1B50, 0x1BB0, 0x1C40, 0x1C50,
   0xA620, 0xA8D0, 0xA900, 0xA9D0, 0xA9F0, 0xAA50, 0xABF0, 0xFF10,
   0x104A0, 0x10D30, 0x11066, 0x110F0, 0x11136, 0x111D0, 0x112F0, 0x11450,
   0x114D0, 0x11650, 0x116C0, 0x11730, 0x118E0, 0x11950, 0x11C50, 0x11D50,
   0x11DA0, 0x11F50, 0x16A60, 0x16AC0, 0x16B50, 0x1D7CE, 0x1D7D8, 0x1D7E2,
   0x1D7EC, 0x1D7F6, 0x1E140, 0x1E2F0, 0x1E4F0, 0x1E950, 0x1FBF0]

/-- Python regex `\d` on a `str` pattern: any Unicode decimal digit. -/
def isDigitPy (c : Char) : Bool :=
  ndFamilyStarts.any (fun lo => decide (lo ≤ c.toNat ∧ c.toNat ≤ lo + 9))

/-- Digit value of a Unicode decimal digit, as `int()` reads it (its
offset within its Nd block); 0 for non-digits. -/
def digitValPy (c : Char) : Nat :=
  match ndFamilyStarts.find? (fun lo => decide (lo ≤ c.toNat ∧ c.toNat ≤ lo + 9)) with
  | some lo => c.toNat - lo
  | none => 0

/-- The view of the subject string against which an re pattern ending in
`$` is matched: `$` (without `re.MULTILINE`) matches at the end of the
string or just before one newline at the end, so one trailing newline is
dropped.  (A pattern ending in `\d` can never itself consume that
newline, so this is equivalent.) -/
def reDollarView (cs : List Char) : List Char :=
  match cs.getLast? with
  | some c => if c = '\n' then cs.dropLast else cs
  | none => cs

/-- The regex `^(\d{2})\.(\d{2})\.(\d{2}|\d{4})$` of
`DisclaimerGenerator.validate_date`, returning the captured day and month
as numbers (the year capture is only checked for shape).  `\d` matches
Unicode decimal digits and `$` tolerates one trailing newline, as in
Python's `re` on `str` patterns. -/
def matchDatePattern (s : String) : Option (Nat × Nat) :=
  match reDollarView s.data with
  | [d1, d2, '.', m1, m2, '.', y1, y2] =>
    if isDigitPy d1 ∧ isDigitPy d2 ∧ isDigitPy m1 ∧ isDigitPy m2 ∧
        isDigitPy y1 ∧ isDigitPy y2 then
      some (10 * digitValPy d1 + digitValPy d2, 10 * digitValPy m1 + digitValPy m2)
    else none
  | [d1, d2, '.', m1, m2, '.', y1, y2, y3, y4] =>
    if isDigitPy d1 ∧ isDigitPy d2 ∧ isDigitPy m1 ∧ isDigitPy m2 ∧
        isDigitPy y1 ∧ isDigitPy y2 ∧ isDigitPy y3 ∧ isDigitPy y4 then
      some (10 * digitValPy d1 + digitValPy d2, 10 * digitValPy m1 + digitValPy m2)
    else none
  | _ => none

/-- Python `f"{n:02d}"` for the month values occurring in messages. -/
def pad2 (n : Nat) : String := if n < 10 then "0" ++ toString n else toString n

/-- The range checks of `DisclaimerGenerator.validate_date` that run after
the regex has matched, on the extracted day and month. -/
def checkDayMonth (day month : Nat) : Bool × Option String :=
  if ¬ (1 ≤ month ∧ month ≤ 12) then (false, some "Месяц должен быть от 01 до 12")
  else if ¬ (1 ≤ day ∧ day ≤ 31) then (false, some "День должен быть от 01 до 31")
  else if month ∈ ([4, 6, 9, 11] : List Nat) ∧ day > 30 then
    (false, some ("В месяце " ++ pad2 month ++ " не может быть " ++ toString day ++ " дней"))
  else if month = 2 ∧ day > 29 then
    (false, some "В феврале не может быть больше 29 дней")
  else (true, none)

/-- `DisclaimerGenerator.validate_date`. -/
def validate_date (date_str : String) : Bool × Option String :=
  if date_str = "" then (false, some "Дата не указана")
  else
    match matchDatePattern date_str with
    | none =>
      (false, some "Неверный формат даты. Используйте ДД.ММ.ГГ или ДД.ММ.ГГГГ (например, 31.12.24 или 31.12.2024)")
    | some (day, month) => checkDayMonth day month

/-- `DisclaimerGenerator.validate_city`. -/
def validate_city (city : String) : Bool × Option String :=
  if city = "" then (false, some "Город не указан")
  else
    let city_lower := stripPy (toLowerPy city)
    if city_lower ∈ ALL_CITIES.map toLowerPy then (true, none)
    else (false, some ("Город \x27" ++ city ++ "\x27 не найден в списке доступных городов"))

/-- `DisclaimerGenerator.validate_positive_number`. -/
def validate_positive_number (value : Option Int) (field_name : String) : Bool × Option String :=
  match value with
  | none => (true, none)
  | some v =>
    if v ≤ 0 then (false, some (field_name ++ " должно быть положительным числом"))
    else (true, none)

/-- `DisclaimerGenerator.validate_percentage`. -/
def validate_percentage (value : Option Int) : Bool × Option String :=
  match value with
  | none => (true, none)
  | some v =>
    if ¬ (0 < v ∧ v ≤ 100) then (false, some "Процент должен быть от 0 до 100")
    else (true, none)

/-- Python `date_str.split(".")` on the character list (keeps empty parts,
exactly like `str.split` with an explicit separator). -/
def splitOnDot : List Char → List (List Char)
  | [] => [[]]
  | '.' :: rest => [] :: splitOnDot rest
  | c :: rest =>
    match splitOnDot rest with
    | [] => [[c]]
    | p :: ps => (c :: p) :: ps

/-- CPython `strptime` fragment for `%d`/`%m`: one or two digit characters
whose value lies in `[1, hi]` (digits modelled as ASCII, as above). -/
def parseNumPart (part : List Char) (hi : Nat) : Option Nat :=
  match part with
  | [a] => if a.isDigit then (if 1 ≤ digitVal a ∧ digitVal a ≤ hi then some (digitVal a) else none) else none
  | [a, b] =>
    if a.isDigit ∧ b.isDigit then
      let v := 10 * digitVal a + digitVal b
      if 1 ≤ v ∧ v ≤ hi then some v else none
    else none
  | _ => none

/-- CPython `strptime` `%y`: exactly two digits, mapped to 2000..2068 /
1969..1999. -/
def parseYear2 (part : List Char) : Option Nat :=
  match part with
  | [a, b] =>
    if a.isDigit ∧ b.isDigit then
      let v := 10 * digitVal a + digitVal b
      some (if v ≤ 68 then 2000 + v else 1900 + v)
    else none
  | _ => none

/-- CPython `strptime` `%Y`: exactly four digits; year 0 is below
`datetime.MINYEAR` and is rejected. -/
def parseYear4 (part : List Char) : Option Nat :=
  match part with
  | [a, b, c, d] =>
    if a.isDigit ∧ b.isDigit ∧ c.isDigit ∧ d.isDigit then
      let v := 1000 * digitVal a + 100 * digitVal b + 10 * digitVal c + digitVal d
      if 1 ≤ v then some v else none
    else none
  | _ => none

/-- Gregorian leap-year rule used by `datetime`. -/
def isLeapYear (y : Nat) : Bool := (y % 4 == 0 && y % 100 != 0) || y % 400 == 0

/-- Days in a month, as enforced by `datetime`'s constructor. -/
def daysInMonth (y m : Nat) : Nat :=
  if m = 2 then (if isLeapYear y then 29 else 28)
  else if m ∈ ([4, 6, 9, 11] : List Nat) then 30
  else 31

/-- `parse_flexible_date` (the inner helper of
`DisclaimerGenerator.validate_dates_order`): split on dots, require three
parts, dispatch on the year part's length to `strptime("%d.%m.%y")` or
`strptime("%d.%m.%Y")`, both of which also enforce the real calendar.
Returns `(year, month, day)`. -/
def parse_flexible_date (s : String) : Option (Nat × Nat × Nat) :=
  match splitOnDot s.data with
  | [dPart, mPart, yPart] =>
    if yPart.length = 2 then
      match parseNumPart dPart 31, parseNumPart mPart 12, parseYear2 yPart with
      | some d, some m, some y => if d ≤ daysInMonth y m then some (y, m, d) else none
      | _, _, _ => none
    else if yPart.length = 4 then
      match parseNumPart dPart 31, parseNumPart mPart 12, parseYear4 yPart with
      | some d, some m, some y => if d ≤ daysInMonth y m then some (y, m, d) else none
      | _, _, _ => none
    else none
  | _ => none

/-- `datetime` comparison: lexicographic on (year, month, day). -/
def dateLt : Nat × Nat × Nat → Nat × Nat × Nat → Bool
  | (y1, m1, d1), (y2, m2, d2) =>
    decide (y1 < y2 ∨ (y1 = y2 ∧ (m1 < m2 ∨ (m1 = m2 ∧ d1 < d2))))

/-- `DisclaimerGenerator.validate_dates_order`. -/
def validate_dates_order (start_date end_date : String) : Bool × Option String :=
  match parse_flexible_date start_date, parse_flexible_date end_date with
  | some s, some e =>
    if dateLt s e then (true, none)
    else (false, some "Дата начала должна быть раньше даты окончания")
  | _, _ => (false, some "Ошибка при сравнении дат")

/-- `models.CreativeParams` (defaults as in the dataclass). -/
structure CreativeParams where
  creative_type : CreativeType
  city : String
  channel : ChannelType
  end_date : Option String := none
  max_discount_amount : Option Int := none
  add_delivery_info : Bool := false
  delivery_info_text : Option String := none
  discount_size : Option Int := none
  discount_unit : Option String := none
  first_order_only : Bool := false
  specific_category : Option String := none
  min_order_amount : Option Int := none
  max_promo_discount : Option Int := none
  usage_count : Option Int := none
  start_date : Option String := none
deriving DecidableEq

/-- Python truthiness of an `Optional[str]` (`None` and `""` are falsy). -/
def truthyStr : Option String → Bool
  | none => false
  | some s => s ≠ ""

/-- Python truthiness of an optional number (`None` and `0` are falsy). -/
def truthyInt : Option Int → Bool
  | none => false
  | some n => n ≠ 0

/-- Python `f"{x}"` for an optional number (`None` prints as `None`). -/
def renderOptInt : Option Int → String
  | none => "None"
  | some n => toString n

/-- Python `f"{x}"` for an optional string. -/
def renderOptStr : Option String → String
  | none => "None"
  | some s => s

/-- `DisclaimerGenerator` class constants. -/
def LINK_MO : String := "clck.ru/397gmg"

def LINK_CITIES : String := "clck.ru/3Dq8fF"

def EXCLUDED_CATEGORIES : String := "«Сертификаты», «Магазин Яндекса» и «Магазины по пути»"

def PROMO_EXCLUDED : String :=
  "«Магазин Яндекса», «Товары для взрослых», «Сертификаты», «Молочные смеси», товары с доставкой «По пути», «Аптеки»"

def NO_COMBINATION : String := "Не суммируется с другими акциями."

def CERTIFICATE_RULE : String :=
  "Если номинал сертификата покрывает полностью стоимость заказа, то сумма каждой единицы товара, оплачиваемых пользователем, с учетом скидки будет равна 1 (одному) рублю."

def CERTIFICATE_LINK : String := "https://yandex.ru/legal/promocode_eda/"

def LIMITED_QUANTITY : String := "Количество товаров ограничено."

def DELIVERY_NOT_INCLUDED : String := "Не применяется на стоимость доставки и упаковки."

def DEFAULT_DELIVERY_INFO : String :=
  "Три бесплатные доставки в пешей и одна в авто зоне. Доставку осуществляют партнеры Яндекс Еды."

/-- `DisclaimerGenerator._validate_dynamic_newcomer`. -/
def validate_dynamic_newcomer (p : CreativeParams) : Bool × Option String :=
  if ¬ truthyStr p.end_date then (false, some "Дата окончания обязательна")
  else validate_date (renderOptStr p.end_date)

/-- `DisclaimerGenerator._validate_classic_newcomer`. -/
def validate_classic_newcomer (p : CreativeParams) : Bool × Option String :=
  if ¬ truthyStr p.end_date then (false, some "Дата окончания обязательна")
  else
    let r := validate_date (renderOptStr p.end_date)
    if ¬ r.fst then (false, r.snd)
    else if ¬ truthyInt p.max_discount_amount then
      (false, some "Максимальный размер скидки обязателен")
    else validate_positive_number p.max_discount_amount "Максимальный размер скидки"

/-- `DisclaimerGenerator._validate_promo_code`. -/
def validate_promo_code (p : CreativeParams) : Bool × Option String :=
  if ¬ truthyStr p.end_date then (false, some "Дата окончания обязательна")
  else
    let r := validate_date (renderOptStr p.end_date)
    if ¬ r.fst then (false, r.snd)
    else if ¬ truthyInt p.discount_size then (false, some "Размер скидки обязателен")
    else if ¬ (truthyStr p.discount_unit ∧ (p.discount_unit = some "%" ∨ p.discount_unit = some "₽")) then
      (false, some "Единица измерения скидки должна быть % или ₽")
    else
      let rUnit :=
        if p.discount_unit = some "%" then validate_percentage p.discount_size
        else validate_positive_number p.discount_size "Размер скидки"
      if ¬ rUnit.fst then (false, rUnit.snd)
      else
        let rMin := validate_positive_number p.min_order_amount "Минимальная сумма заказа"
        if ¬ rMin.fst then (false, rMin.snd)
        else
          let rMax := validate_positive_number p.max_promo_discount "Максимальная скидка"
          if ¬ rMax.fst then (false, rMax.snd)
          else (true, none)

/-- `DisclaimerGenerator._validate_certificate` (`usage_count` is an int
in the model, so the `isinstance` test always holds, as in the bot). -/
def validate_certificate (p : CreativeParams) : Bool × Option String :=
  if ¬ truthyStr p.end_date then (false, some "Дата окончания обязательна")
  else
    let r := validate_date (renderOptStr p.end_date)
    if ¬ r.fst then (false, r.snd)
    else if ¬ truthyInt p.usage_count then (false, some "Количество применений обязательно")
    else if (p.usage_count.getD 0) ≤ 0 then
      (false, some "Количество применений должно быть целым положительным числом")
    else (true, none)

/-- `DisclaimerGenerator._validate_vendor`. -/
def validate_vendor (p : CreativeParams) : Bool × Option String :=
  if ¬ truthyStr p.start_date then (false, some "Дата начала обязательна")
  else if ¬ truthyStr p.end_date then (false, some "Дата окончания обязательна")
  else
    let rs := validate_date (renderOptStr p.start_date)
    if ¬ rs.fst then (false, some ("Дата начала: " ++ renderOptStr rs.snd))
    else
      let re := validate_date (renderOptStr p.end_date)
      if ¬ re.fst then (false, some ("Дата окончания: " ++ renderOptStr re.snd))
      else validate_dates_order (renderOptStr p.start_date) (renderOptStr p.end_date)

/-- `DisclaimerGenerator.validate_params`: the city check runs first, then
the creative-type specific gate. -/
def validate_params (p : CreativeParams) : Bool × Option String :=
  let rCity := validate_city p.city
  if ¬ rCity.fst then (false, rCity.snd)
  else
    match p.creative_type with
    | .dynamic_newcomer => validate_dynamic_newcomer p
    | .classic_newcomer => validate_classic_newcomer p
    | .promo_code => validate_promo_code p
    | .certificate => validate_certificate p
    | .vendor => validate_vendor p
    | .image => (true, none)
    | .product => (true, none)

/-- The first-order clause of `_generate_promo_code`. -/
def foClause : String := "на первый заказ"

/-- The category clause of `_generate_promo_code`. -/
def catClause (cat : String) : String := "на заказ из категорий \"" ++ cat ++ "\""

/-- The minimum-order clause of `_generate_promo_code`. -/
def minClause (r : String) : String := "от " ++ r ++ " ₽"

/-- The maximum-discount clause of `_generate_promo_code`. -/
def maxClause (r : String) : String := "не более " ++ r ++ " ₽"

/-- The `conditions` list built inside
`DisclaimerGenerator._generate_promo_code`. -/
def promoConditions (p : CreativeParams) : List String :=
  (if p.first_order_only then [foClause]
   else if truthyStr p.specific_category then
     [catClause (renderOptStr p.specific_category)]
   else [])
  ++ (if truthyInt p.min_order_amount then [minClause (renderOptInt p.min_order_amount)] else [])
  ++ (if truthyInt p.max_promo_discount ∧ ¬ (p.discount_unit = some "₽") then
        [maxClause (renderOptInt p.max_promo_discount)]
      else [])

/-- `DisclaimerGenerator._generate_dynamic_newcomer`. -/
def generate_dynamic_newcomer (p : CreativeParams) (legal_entity : String) : String :=
  "Акция действует до " ++ renderOptStr p.end_date ++ ". " ++
    "Не распространяется на категории " ++ EXCLUDED_CATEGORIES ++ ". " ++
    "Подробности - " ++ LINK_MO ++ ". " ++ legal_entity ++ "."

/-- `DisclaimerGenerator._generate_classic_newcomer`. -/
def generate_classic_newcomer (p : CreativeParams) (legal_entity : String) : String :=
  let base :=
    "Акция действует до " ++ renderOptStr p.end_date ++ " " ++
      "(максимальный размер скидки - " ++ renderOptInt p.max_discount_amount ++ " руб.). " ++
      "Не распространяется на категории " ++ EXCLUDED_CATEGORIES ++ ". " ++
      "Подробности - " ++ LINK_CITIES ++ ". "
  let withDelivery :=
    if p.add_delivery_info then
      base ++ (if truthyStr p.delivery_info_text then renderOptStr p.delivery_info_text
               else DEFAULT_DELIVERY_INFO)
    else base
  withDelivery ++ legal_entity

/-- `DisclaimerGenerator._generate_promo_code`. -/
def generate_promo_code (p : CreativeParams) (legal_entity : String) : String :=
  let discount_text := "скидка " ++ renderOptInt p.discount_size ++ renderOptStr p.discount_unit
  let conditions_text := " ".intercalate (promoConditions p)
  let discount_full :=
    if conditions_text ≠ "" then discount_text ++ " " ++ conditions_text else discount_text
  "До " ++ renderOptStr p.end_date ++ " " ++ discount_full ++ ". " ++
    "Не применяется к товарам из разделов " ++ PROMO_EXCLUDED ++ ". " ++
    NO_COMBINATION ++ " " ++ legal_entity

/-- `DisclaimerGenerator._generate_certificate`. -/
def generate_certificate (p : CreativeParams) (legal_entity : String) : String :=
  "Сертификат действует до " ++ renderOptStr p.end_date ++ ". " ++
    "Количество применений сертификата - не более " ++ renderOptInt p.usage_count ++ " раз " ++
    "в пределах номинала сертификата. " ++ CERTIFICATE_RULE ++ " " ++
    "Подробные условия применения - " ++ CERTIFICATE_LINK ++ ". " ++
    DELIVERY_NOT_INCLUDED ++ " " ++ legal_entity

/-- `DisclaimerGenerator._generate_image`. -/
def generate_image (legal_entity : String) : String := legal_entity

/-- `DisclaimerGenerator._generate_product`. -/
def generate_product (legal_entity : String) : String :=
  LIMITED_QUANTITY ++ " " ++ legal_entity

/-- `DisclaimerGenerator._generate_vendor`. -/
def generate_vendor (p : CreativeParams) (legal_entity : String) : String :=
  "Акция действует с " ++ renderOptStr p.start_date ++ " по " ++ renderOptStr p.end_date ++ ". " ++
    LIMITED_QUANTITY ++ " " ++ legal_entity

/-- `DisclaimerGenerator.generate`: validate, resolve the legal entity,
then dispatch on the creative type.  `.error` carries the message of the
`ValidationError` (or of the `ValueError` escaping `get_legal_entity`). -/
def generate (p : CreativeParams) : Except String String :=
  let r := validate_params p
  if ¬ r.fst then .error (renderOptStr r.snd)
  else
    match get_legal_entity p.city p.channel with
    | .error e => .error e
    | .ok legal_entity =>
      match p.creative_type with
      | .dynamic_newcomer => .ok (generate_dynamic_newcomer p legal_entity)
      | .classic_newcomer => .ok (generate_classic_newcomer p legal_entity)
      | .promo_code => .ok (generate_promo_code p legal_entity)
      | .certificate => .ok (generate_certificate p legal_entity)
      | .image => .ok (generate_image legal_entity)
      | .product => .ok (generate_product legal_entity)
      | .vendor => .ok (generate_vendor p legal_entity)

/-- The parameter record built for one city of the mass-generation loop in
`handlers.generate_mass_disclaimers` (all other fields held constant). -/
def setCity (p : CreativeParams) (c : String) : CreativeParams := { p with city := c }

/-- The loop of `handlers.generate_mass_disclaimers`: generate for each
selected city in order; the first `ValidationError` aborts the whole batch
and the locally accumulated pairs are discarded (the handler's `except`
branch reports only the error). -/
def generateBatch (p : CreativeParams) : List String → Except String (List (String × String))
  | [] => .ok []
  | c :: rest =>
    match generate (setCity p c) with
    | .error e => .error e
    | .ok d =>
      match generateBatch p rest with
      | .error e => .error e
      | .ok ds => .ok ((c, d) :: ds)

instance : DecidableEq (Except String String) :=
  fun a b =>
    match a, b with
    | .ok x, .ok y =>
      if h : x = y then .isTrue (congrArg Except.ok h)
      else .isFalse (fun hc => h (Except.ok.inj hc))
    | .error x, .error y =>
      if h : x = y then .isTrue (congrArg Except.error h)
      else .isFalse (fun hc => h (Except.error.inj hc))
    | .ok _, .error _ => .isFalse (fun hc => Except.noConfusion hc)
    | .error _, .ok _ => .isFalse (fun hc => Except.noConfusion hc)

/-- Spec-side characterization of the day/month range checks, written from
the spec: month ∈ [1,12], day ∈ [1,31], day ≤ 30 for months 4, 6, 9, 11
and day ≤ 29 for month 2. -/
def dateSpecCheck (day month : Nat) : Bool :=
  if 1 ≤ month ∧ month ≤ 12 ∧ 1 ≤ day ∧ day ≤ 31 ∧
      (month ∈ ([4, 6, 9, 11] : List Nat) → day ≤ 30) ∧ (month = 2 → day ≤ 29)
  then true else false

/-- Spec-side characterization of `validate_date` success, amended to
Python's actual regex semantics: the string has shape `DD.MM.YY` or
`DD.MM.YYYY` — digits being Unicode decimal digits (`\d`), with one
optional trailing newline (`$`) — and the day/month bounds of
`dateSpecCheck` hold. -/
def dateSpecOK (s : String) : Bool :=
  match matchDatePattern s with
  | none => false
  | some (day, month) => dateSpecCheck day month

/-- The claim's literal format reading, written from the claim's words:
exactly two ASCII-digit day, dot, two ASCII-digit month, dot, two or four
ASCII-digit year, and nothing else. -/
def strictClaimFormat (s : String) : Option (Nat × Nat) :=
  match s.data with
  | [d1, d2, '.', m1, m2, '.', y1, y2] =>
    if d1.isDigit ∧ d2.isDigit ∧ m1.isDigit ∧ m2.isDigit ∧ y1.isDigit ∧ y2.isDigit then
      some (10 * digitVal d1 + digitVal d2, 10 * digitVal m1 + digitVal m2)
    else none
  | [d1, d2, '.', m1, m2, '.', y1, y2, y3, y4] =>
    if d1.isDigit ∧ d2.isDigit ∧ m1.isDigit ∧ m2.isDigit ∧
        y1.isDigit ∧ y2.isDigit ∧ y3.isDigit ∧ y4.isDigit then
      some (10 * digitVal d1 + digitVal d2, 10 * digitVal m1 + digitVal m2)
    else none
  | _ => none

/-- The characterization exactly as the claim states it: strings of the
strict `DD.MM.YY(YY)` form above whose day/month bounds hold, and no
other string. -/
def dateClaimStrictOK (s : String) : Bool :=
  match strictClaimFormat s with
  | none => false
  | some (day, month) => dateSpecCheck day month

/-- The concrete promo-code parameter set of claim C1. -/
def c1Params : CreativeParams :=
  { creative_type := .promo_code
    city := "москва"
    channel := .other
    end_date := some "31.12.24"
    discount_size := some 20
    discount_unit := some "%"
    first_order_only := true
    min_order_amount := some 1000 }

/-- The fixed (non-city) parameters of the two-city batch of claim C2; the
city field is overwritten per city by `setCity`, as in the handler loop. -/
def c2BatchParams : CreativeParams :=
  { creative_type := .promo_code
    city := ""
    channel := .other
    end_date := some "31.12.24"
    discount_size := some 20
    discount_unit := some "%"
    first_order_only := true
    min_order_amount := some 1000 }

/-! ## Shared helper lemmas -/

theorem checkDayMonth_fst (day month : Nat) :
    (checkDayMonth day month).fst = dateSpecCheck day month := by
  unfold checkDayMonth dateSpecCheck
  simp only [List.mem_cons, List.not_mem_nil, or_false]
  split_ifs <;> simp_all <;> omega

theorem validate_date_fst_eq_dateSpecOK (s : String) :
    (validate_date s).fst = dateSpecOK s := by
  unfold validate_date dateSpecOK
  by_cases hs : s = ""
  · subst hs
    decide
  · rw [if_neg hs]
    cases hm : matchDatePattern s with
    | none => rfl
    | some dm =>
      obtain ⟨day, month⟩ := dm
      exact checkDayMonth_fst day month

/-! ## Claim theorems -/

/-- C1: for the promo-code parameters {city москва, channel Other,
endDate 31.12.24, discountSize 20, discountUnit %, firstOrderOnly true,
minOrderAmount 1000}, `generate` succeeds and returns exactly the claimed
disclaimer string. -/
theorem c1_promo_code_moscow_example :
    generate c1Params =
      .ok "До 31.12.24 скидка 20% на первый заказ от 1000 ₽. Не применяется к товарам из разделов «Магазин Яндекса», «Товары для взрослых», «Сертификаты», «Молочные смеси», товары с доставкой «По пути», «Аптеки». Не суммируется с другими акциями. ООО «Яндекс Лавка», Москва, ОГРН 1187746479250" :=
  rfl

/-- C3 counterexample: the claim says `validate_date` fails on every
string not of the strict `DD.MM.YY(YY)` form (`dateClaimStrictOK`), but
Python's `$` tolerates one trailing newline and `\d` matches Unicode
decimal digits, so "31.12.24\n" and "31.12.2٤" (Arabic-Indic four) are
accepted although they are not of the claimed form. -/
theorem c3_strict_claim_counterexample :
    validate_date "31.12.24\n" = (true, none) ∧
    dateClaimStrictOK "31.12.24\n" = false ∧
    validate_date "31.12.2٤" = (true, none) ∧
    dateClaimStrictOK "31.12.2٤" = false :=
  ⟨by decide, by decide, by decide, by decide⟩

/-- C3 (amended): `validate_date` succeeds exactly on strings of shape
`DD.MM.YY` or `DD.MM.YYYY` — digits being Unicode decimal digits as
matched by Python's `\d`, with one optional trailing newline as tolerated
by `$` — with month ∈ [1,12], day ∈ [1,31], day ≤ 30 for months
4, 6, 9, 11 and day ≤ 29 for month 2 (`dateSpecOK`); every other input
string fails; in particular "29.02.23" succeeds — there is no leap-year
check. -/
theorem c3_validate_date_characterization :
    (∀ s, (validate_date s).fst = dateSpecOK s) ∧
    validate_date "29.02.23" = (true, none) :=
  ⟨validate_date_fst_eq_dateSpecOK, by decide⟩

/-- C9: both "29.02.23" and "01.03.23" are accepted by `validate_date`,
yet `validate_dates_order` on them fails with the generic
comparison-failure message, because its strict parser
(`parse_flexible_date`, modelling `datetime.strptime`) rejects
29 February of the non-leap year 2023. -/
theorem c9_accepted_date_fails_order_check :
    validate_date "29.02.23" = (true, none) ∧
    validate_date "01.03.23" = (true, none) ∧
    parse_flexible_date "29.02.23" = none ∧
    validate_dates_order "29.02.23" "01.03.23" =
      (false, some "Ошибка при сравнении дат") :=
  ⟨by decide, by decide, by decide, by decide⟩

theorem dateLt_irrefl (a : Nat × Nat × Nat) : dateLt a a = false := by
  obtain ⟨y, m, d⟩ := a
  simp [dateLt]

theorem validate_dates_order_eq_of_parse (s e : String) (a b : Nat × Nat × Nat)
    (ha : parse_flexible_date s = some a) (hb : parse_flexible_date e = some b) :
    validate_dates_order s e =
      if dateLt a b then (true, none)
      else (false, some "Дата начала должна быть раньше даты окончания") := by
  unfold validate_dates_order
  rw [ha, hb]

/-- C6: `validate_dates_order` parses both arguments with the dual-format
rule (`parse_flexible_date`) and, when both parse, succeeds exactly when
the start date strictly precedes the end date; equal dates fail with the
date-order message; a parse failure on either argument yields the generic
comparison-failure message.  In particular ("01.01.25", "01.01.24") fails
with the date-order message and ("01.01.24", "01.01.25") succeeds. -/
theorem c6_validate_dates_order_characterization :
    (∀ s e a b, parse_flexible_date s = some a → parse_flexible_date e = some b →
      ((validate_dates_order s e).fst = true ↔ dateLt a b = true) ∧
      (a = b → validate_dates_order s e =
        (false, some "Дата начала должна быть раньше даты окончания"))) ∧
    (∀ s e, parse_flexible_date s = none ∨ parse_flexible_date e = none →
      validate_dates_order s e = (false, some "Ошибка при сравнении дат")) ∧
    validate_dates_order "01.01.25" "01.01.24" =
      (false, some "Дата начала должна быть раньше даты окончания") ∧
    validate_dates_order "01.01.24" "01.01.25" = (true, none) := by
  refine ⟨?_, ?_, by decide, by decide⟩
  · intro s e a b ha hb
    rw [validate_dates_order_eq_of_parse s e a b ha hb]
    constructor
    · by_cases hlt : dateLt a b = true
      · rw [if_pos hlt]
        simp [hlt]
      · rw [if_neg hlt]
        simp [hlt]
    · intro hab
      subst hab
      rw [dateLt_irrefl a]
      simp
  · intro s e h
    unfold validate_dates_order
    cases hs : parse_flexible_date s with
    | none => rfl
    | some a =>
      cases he : parse_flexible_date e with
      | none => rfl
      | some b =>
        rw [hs, he] at h
        rcases h with h | h <;> cases h

/-- Witness for C6: the general parts applied at concrete inputs. -/
theorem c6_witness :
    ((validate_dates_order "01.01.24" "02.01.24").fst = true ↔
      dateLt (2024, 1, 1) (2024, 1, 2) = true) ∧
    validate_dates_order "01.01.24" "01.01.24" =
      (false, some "Дата начала должна быть раньше даты окончания") ∧
    validate_dates_order "xx" "01.01.24" = (false, some "Ошибка при сравнении дат") :=
  ⟨(c6_validate_dates_order_characterization.1 "01.01.24" "02.01.24"
      (2024, 1, 1) (2024, 1, 2) (by decide) (by decide)).1,
   (c6_validate_dates_order_characterization.1 "01.01.24" "01.01.24"
      (2024, 1, 1) (2024, 1, 1) (by decide) (by decide)).2 rfl,
   c6_validate_dates_order_characterization.2.1 "xx" "01.01.24" (Or.inl (by decide))⟩

theorem lookupEntity_eq_none (l : List (String × LegalEntity)) (key : String)
    (h : key ∉ l.map Prod.fst) : lookupEntity l key = none := by
  induction l with
  | nil => rfl
  | cons p rest ih =>
    obtain ⟨k, v⟩ := p
    simp only [List.map_cons, List.mem_cons, not_or] at h
    unfold lookupEntity
    rw [if_neg h.1]
    exact ih h.2

theorem lookupEntity_isSome (l : List (String × LegalEntity)) (key : String)
    (h : key ∈ l.map Prod.fst) : ∃ v, lookupEntity l key = some v := by
  induction l with
  | nil => simp at h
  | cons p rest ih =>
    obtain ⟨k, v⟩ := p
    unfold lookupEntity
    by_cases hk : key = k
    · rw [if_pos hk]
      exact ⟨v, rfl⟩
    · rw [if_neg hk]
      apply ih
      simp only [List.map_cons, List.mem_cons] at h
      tauto

/-- C4: corporate cities resolve to the shared operator entity (full text
for TV/Radio, short otherwise); each franchise city resolves to its own
registry entity; the two franchise cities тверь and владимир, which share
one registry entity, resolve to identical text on every channel; a city
whose normalized name is in neither table makes `get_legal_entity` fail. -/
theorem c4_resolve_entity_characterization :
    (∀ c ∈ CORPORATE_CITIES,
      get_legal_entity c .tv_radio = .ok YANDEX_LAVKA.full ∧
      get_legal_entity c .other = .ok YANDEX_LAVKA.short) ∧
    (∀ ke ∈ FRANCHISE_ENTITIES,
      get_legal_entity ke.fst .tv_radio = .ok ke.snd.full ∧
      get_legal_entity ke.fst .other = .ok ke.snd.short) ∧
    (∀ ch, get_legal_entity "тверь" ch = get_legal_entity "владимир" ch) ∧
    (∀ city ch, stripPy (toLowerPy city) ∉ ALL_CITIES →
      get_legal_entity city ch =
        .error ("Город \x27" ++ city ++ "\x27 не найден в списке доступных городов")) := by
  refine ⟨by decide, by decide, fun ch => by cases ch <;> rfl, ?_⟩
  intro city ch h
  unfold get_legal_entity
  rw [ALL_CITIES] at h
  simp only [List.mem_append, not_or] at h
  rw [if_neg h.1, lookupEntity_eq_none FRANCHISE_ENTITIES _ h.2]

/-- Witness for C4: the bounded quantifiers applied at москва, at the
first franchise entry (тула), and the unknown-city part at атлантис. -/
theorem c4_witness :
    get_legal_entity "москва" .tv_radio = .ok YANDEX_LAVKA.full ∧
    get_legal_entity "тула" .tv_radio =
      .ok ((FRANCHISE_ENTITIES.get ⟨0, by decide⟩).snd.full) ∧
    get_legal_entity "атлантис" .other =
      .error "Город \x27атлантис\x27 не найден в списке доступных городов" :=
  ⟨(c4_resolve_entity_characterization.1 "москва" (by decide)).1,
   (c4_resolve_entity_characterization.2.1 (FRANCHISE_ENTITIES.get ⟨0, by decide⟩)
      (List.get_mem FRANCHISE_ENTITIES 0 (by decide))).1,
   c4_resolve_entity_characterization.2.2.2 "атлантис" .other (by decide)⟩

/-- C5: membership validation and entity resolution consult the same
registry with the same normalization, so a city accepted by
`validate_city` never makes `get_legal_entity` fail, on any channel. -/
theorem c5_validated_city_resolves (city : String) (channel : ChannelType)
    (h : (validate_city city).fst = true) :
    ∃ t, get_legal_entity city channel = .ok t := by
  unfold validate_city at h
  by_cases hc : city = ""
  · rw [if_pos hc] at h
    simp at h
  · rw [if_neg hc] at h
    by_cases hm : stripPy (toLowerPy city) ∈ ALL_CITIES.map toLowerPy
    · have hall : ALL_CITIES.map toLowerPy = ALL_CITIES := by decide
      rw [hall, ALL_CITIES] at hm
      unfold get_legal_entity
      by_cases hcorp : stripPy (toLowerPy city) ∈ CORPORATE_CITIES
      · rw [if_pos hcorp]
        cases channel <;> exact ⟨_, rfl⟩
      · rw [if_neg hcorp]
        rcases List.mem_append.mp hm with hl | hr
        · exact absurd hl hcorp
        · obtain ⟨v, hv⟩ := lookupEntity_isSome FRANCHISE_ENTITIES _ hr
          rw [hv]
          cases channel <;> exact ⟨_, rfl⟩
    · rw [if_neg hm] at h
      simp at h

/-- Witness for C5 at москва / Other. -/
theorem c5_witness :
    (validate_city "москва").fst = true ∧
    ∃ t, get_legal_entity "москва" .other = .ok t :=
  ⟨by decide, c5_validated_city_resolves "москва" .other (by decide)⟩

/-- C7: the per-type gate checks the city first: for any parameter set
whose (nonempty) city is not in the registry, `generate` fails with the
city-not-found message, regardless of the creative type and of every
other field. -/
theorem c7_city_checked_first (p : CreativeParams) (hne : p.city ≠ "")
    (h : stripPy (toLowerPy p.city) ∉ ALL_CITIES.map toLowerPy) :
    generate p =
      .error ("Город \x27" ++ p.city ++ "\x27 не найден в списке доступных городов") := by
  have hv : validate_params p =
      (false, some ("Город \x27" ++ p.city ++ "\x27 не найден в списке доступных городов")) := by
    unfold validate_params validate_city
    rw [if_neg hne, if_neg h]
    rfl
  unfold generate
  rw [hv]
  rfl

/-- Witness for C7: unknown city атлантис with a certificate creative and
all other fields absent. -/
theorem c7_witness :
    generate { creative_type := .certificate, city := "атлантис", channel := .tv_radio } =
      .error "Город \x27атлантис\x27 не найден в списке доступных городов" :=
  c7_city_checked_first
    { creative_type := .certificate, city := "атлантис", channel := .tv_radio }
    (by decide) (by decide)

theorem validate_date_fst_ne_empty (s : String) (h : (validate_date s).fst = true) :
    s ≠ "" := by
  intro hs
  subst hs
  simp [validate_date] at h

/-- C10: a required numeric field whose value is zero is reported with the
required-field message, not the positive-number message: for a classic
newcomer discount with valid city and end date and maxDiscountAmount = 0,
and for a promo code with valid city and end date and discountSize = 0
(Python falsiness of 0 hits the `not field` check first). -/
theorem c10_zero_reported_as_missing :
    (∀ p : CreativeParams, p.creative_type = .classic_newcomer →
      (validate_city p.city).fst = true →
      (validate_date (renderOptStr p.end_date)).fst = true →
      p.max_discount_amount = some 0 →
      validate_params p = (false, some "Максимальный размер скидки обязателен")) ∧
    (∀ p : CreativeParams, p.creative_type = .promo_code →
      (validate_city p.city).fst = true →
      (validate_date (renderOptStr p.end_date)).fst = true →
      p.discount_size = some 0 →
      validate_params p = (false, some "Размер скидки обязателен")) := by
  have htruthy : ∀ o : Option String, (validate_date (renderOptStr o)).fst = true →
      truthyStr o = true := by
    intro o hd
    cases o with
    | none => simp [renderOptStr] at hd; cases hd
    | some s =>
      have := validate_date_fst_ne_empty s hd
      simp [truthyStr, this]
  constructor
  · intro p ht hcity hdate hzero
    have htr := htruthy p.end_date hdate
    simp [validate_params, hcity, ht, validate_classic_newcomer, htr, hdate, hzero, truthyInt]
  · intro p ht hcity hdate hzero
    have htr := htruthy p.end_date hdate
    simp [validate_params, hcity, ht, validate_promo_code, htr, hdate, hzero, truthyInt]

/-- Witness for C10: concrete classic-newcomer and promo-code parameter
sets with valid city and end date and a zero amount. -/
theorem c10_witness :
    validate_params
        { creative_type := .classic_newcomer, city := "москва", channel := .other,
          end_date := some "31.12.24", max_discount_amount := some 0 } =
      (false, some "Максимальный размер скидки обязателен") ∧
    validate_params
        { creative_type := .promo_code, city := "москва", channel := .other,
          end_date := some "31.12.24", discount_size := some 0 } =
      (false, some "Размер скидки обязателен") :=
  ⟨c10_zero_reported_as_missing.1 _ rfl (by decide) (by decide) rfl,
   c10_zero_reported_as_missing.2 _ rfl (by decide) (by decide) rfl⟩

/-- C2: batch generation is all-or-nothing: if `generate` fails for any
city of the list, the whole batch returns a single error (so zero
disclaimers are returned); in particular the batch over
["москва", "атлантис"] with otherwise-valid promo parameters fails
entirely with the unknown-city error, with no partial result. -/
theorem c2_batch_all_or_nothing :
    (∀ (p : CreativeParams) (cities : List String) (c : String),
      c ∈ cities → (∃ e, generate (setCity p c) = .error e) →
      (∃ e, generateBatch p cities = .error e) ∧
      ∀ l, generateBatch p cities ≠ .ok l) ∧
    generateBatch c2BatchParams ["москва", "атлантис"] =
      .error "Город \x27атлантис\x27 не найден в списке доступных городов" := by
  have main : ∀ (p : CreativeParams) (cities : List String) (c : String),
      c ∈ cities → (∃ e, generate (setCity p c) = .error e) →
      ∃ e, generateBatch p cities = .error e := by
    intro p cities c hc he
    induction cities with
    | nil => cases hc
    | cons x rest ih =>
      unfold generateBatch
      rcases List.mem_cons.mp hc with hcx | hmem
      · subst hcx
        obtain ⟨e, hegen⟩ := he
        rw [hegen]
        exact ⟨e, rfl⟩
      · cases hx : generate (setCity p x) with
        | error e2 => exact ⟨e2, rfl⟩
        | ok d =>
          obtain ⟨e3, hbatch⟩ := ih hmem
          rw [hbatch]
          exact ⟨e3, rfl⟩
  refine ⟨fun p cities c hc he => ?_, rfl⟩
  obtain ⟨e, herr⟩ := main p cities c hc he
  exact ⟨⟨e, herr⟩, fun l hok => by rw [herr] at hok; cases hok⟩

/-- Witness for C2: the general part applied to the one-city batch over
атлантис. -/
theorem c2_witness :
    ∃ e, generateBatch c2BatchParams ["атлантис"] = .error e :=
  (c2_batch_all_or_nothing.1 c2BatchParams ["атлантис"] "атлантис" (by decide)
    ⟨"Город \x27атлантис\x27 не найден в списке доступных городов", by decide⟩).1

theorem string_ne_of_idx (s t : String) (i : Nat) (h : s.data[i]? ≠ t.data[i]?) :
    s ≠ t :=
  fun he => h (by rw [he])

theorem data_idx_append2 (p x y : String) (i : Nat) (h : i < p.data.length) :
    ((p ++ x) ++ y).data[i]? = p.data[i]? := by
  rw [String.data_append, String.data_append,
    List.getElem?_append_left (by rw [List.length_append]; omega),
    List.getElem?_append_left h]

theorem catClause_ne_foClause (c : String) : catClause c ≠ foClause := by
  apply string_ne_of_idx _ _ 3
  rw [catClause, data_idx_append2 "на заказ из категорий \"" c "\"" 3 (by decide)]
  decide

theorem catClause_ne_minClause (c r : String) : catClause c ≠ minClause r := by
  apply string_ne_of_idx _ _ 0
  rw [catClause, minClause,
    data_idx_append2 "на заказ из категорий \"" c "\"" 0 (by decide),
    data_idx_append2 "от " r " ₽" 0 (by decide)]
  decide

theorem catClause_ne_maxClause (c r : String) : catClause c ≠ maxClause r := by
  apply string_ne_of_idx _ _ 1
  rw [catClause, maxClause,
    data_idx_append2 "на заказ из категорий \"" c "\"" 1 (by decide),
    data_idx_append2 "не более " r " ₽" 1 (by decide)]
  decide

theorem minClause_ne_foClause (r : String) : minClause r ≠ foClause := by
  apply string_ne_of_idx _ _ 0
  rw [minClause, data_idx_append2 "от " r " ₽" 0 (by decide)]
  decide

theorem minClause_ne_catClause (r c : String) : minClause r ≠ catClause c :=
  fun h => catClause_ne_minClause c r h.symm

theorem minClause_ne_maxClause (r r2 : String) : minClause r ≠ maxClause r2 := by
  apply string_ne_of_idx _ _ 0
  rw [minClause, maxClause, data_idx_append2 "от " r " ₽" 0 (by decide),
    data_idx_append2 "не более " r2 " ₽" 0 (by decide)]
  decide

theorem maxClause_ne_foClause (r : String) : maxClause r ≠ foClause := by
  apply string_ne_of_idx _ _ 1
  rw [maxClause, data_idx_append2 "не более " r " ₽" 1 (by decide)]
  decide

theorem maxClause_ne_catClause (r c : String) : maxClause r ≠ catClause c :=
  fun h => catClause_ne_maxClause c r h.symm

theorem maxClause_ne_minClause (r r2 : String) : maxClause r ≠ minClause r2 :=
  fun h => minClause_ne_maxClause r2 r h.symm

theorem validate_positive_number_pos (v : Option Int) (name : String)
    (h : (validate_positive_number v name).fst = true) :
    ∀ n, v = some n → 0 < n := by
  intro n hn
  subst hn
  simp only [validate_positive_number] at h
  split_ifs at h with hle
  omega

theorem validate_params_promo (p : CreativeParams)
    (ht : p.creative_type = .promo_code)
    (hv : (validate_params p).fst = true) :
    (validate_promo_code p).fst = true := by
  simp only [validate_params, ht] at hv
  split_ifs at hv with h1
  exact hv

theorem validate_promo_code_checks (p : CreativeParams)
    (h : (validate_promo_code p).fst = true) :
    (validate_positive_number p.min_order_amount "Минимальная сумма заказа").fst = true ∧
    (validate_positive_number p.max_promo_discount "Максимальная скидка").fst = true := by
  simp only [validate_promo_code] at h
  split_ifs at h <;> simp_all

theorem promo_valid_min_max (p : CreativeParams)
    (ht : p.creative_type = .promo_code)
    (hv : (validate_params p).fst = true) :
    (∀ n, p.min_order_amount = some n → 0 < n) ∧
    (∀ n, p.max_promo_discount = some n → 0 < n) := by
  have h := validate_promo_code_checks p (validate_params_promo p ht hv)
  exact ⟨validate_positive_number_pos _ _ h.1, validate_positive_number_pos _ _ h.2⟩

/-- C8: in promo-code composition, for every parameter set that passes the
validation gate: when firstOrderOnly is set the first-order clause is in
the `conditions` list (which `generate_promo_code` joins into the
disclaimer) and no category clause is, even if specificCategory is set;
the "от N ₽" clause is present exactly when minOrderAmount is set; the
"не более N ₽" clause is present exactly when maxPromoDiscount is set and
the discount unit is not "₽". -/
theorem c8_promo_composition (p : CreativeParams)
    (ht : p.creative_type = .promo_code)
    (hv : (validate_params p).fst = true) :
    (p.first_order_only = true →
      foClause ∈ promoConditions p ∧
      ∀ cat, catClause cat ∉ promoConditions p) ∧
    (minClause (renderOptInt p.min_order_amount) ∈ promoConditions p ↔
      p.min_order_amount ≠ none) ∧
    (maxClause (renderOptInt p.max_promo_discount) ∈ promoConditions p ↔
      p.max_promo_discount ≠ none ∧ p.discount_unit ≠ some "₽") := by
  obtain ⟨hminpos, hmaxpos⟩ := promo_valid_min_max p ht hv
  refine ⟨fun hfo => ⟨?_, ?_⟩, ⟨?_, ?_⟩, ⟨?_, ?_⟩⟩
  · simp [promoConditions, hfo]
  · intro cat
    by_cases hmin : truthyInt p.min_order_amount = true <;>
      by_cases hmaxc : truthyInt p.max_promo_discount = true ∧ ¬(p.discount_unit = some "₽") <;>
      simp [promoConditions, hfo, hmin, hmaxc, catClause_ne_foClause,
        catClause_ne_minClause, catClause_ne_maxClause]
  · intro hmem
    cases hmo : p.min_order_amount with
    | some n => simp [hmo]
    | none =>
      exfalso
      rw [hmo] at hmem
      by_cases hfo2 : p.first_order_only = true <;>
        by_cases hcat : truthyStr p.specific_category = true <;>
        by_cases hmaxc : truthyInt p.max_promo_discount = true ∧ ¬(p.discount_unit = some "₽") <;>
        simp [promoConditions, hfo2, hcat, hmaxc, hmo, truthyInt, minClause_ne_foClause,
          minClause_ne_catClause, minClause_ne_maxClause] at hmem
  · intro hne
    cases hmo : p.min_order_amount with
    | none => exact absurd hmo hne
    | some n =>
      have hpos := hminpos n hmo
      have htr : truthyInt (some n) = true := by
        simp only [truthyInt, ne_eq, decide_eq_true_eq]
        omega
      simp [promoConditions, htr, hmo]
  · intro hmem
    by_cases hcond : truthyInt p.max_promo_discount = true ∧ ¬(p.discount_unit = some "₽")
    · obtain ⟨htr, hunit⟩ := hcond
      refine ⟨?_, hunit⟩
      cases hmo : p.max_promo_discount with
      | none => rw [hmo] at htr; simp [truthyInt] at htr
      | some n => simp [hmo]
    · exfalso
      by_cases hfo2 : p.first_order_only = true <;>
        by_cases hcat : truthyStr p.specific_category = true <;>
        by_cases hmin : truthyInt p.min_order_amount = true <;>
        simp [promoConditions, hfo2, hcat, hmin, hcond, maxClause_ne_foClause,
          maxClause_ne_catClause, maxClause_ne_minClause] at hmem
  · intro hc
    obtain ⟨hne, hunit⟩ := hc
    cases hmo : p.max_promo_discount with
    | none => exact absurd hmo hne
    | some n =>
      have hpos := hmaxpos n hmo
      have htr : truthyInt (some n) = true := by
        simp only [truthyInt, ne_eq, decide_eq_true_eq]
        omega
      simp [promoConditions, htr, hunit, hmo]

/-- Witness for C8 at the concrete parameter set of C1 (firstOrderOnly
set, minOrderAmount set, maxPromoDiscount absent). -/
theorem c8_witness :
    (c1Params.first_order_only = true →
      foClause ∈ promoConditions c1Params ∧
      ∀ cat, catClause cat ∉ promoConditions c1Params) ∧
    (minClause (renderOptInt c1Params.min_order_amount) ∈ promoConditions c1Params ↔
      c1Params.min_order_amount ≠ none) ∧
    (maxClause (renderOptInt c1Params.max_promo_discount) ∈ promoConditions c1Params ↔
      c1Params.max_promo_discount ≠ none ∧ c1Params.discount_unit ≠ some "₽") :=
  c8_promo_composition c1Params rfl (by decide)

end UristBot
